import Mathlib

/-!
Verification of the page-title-fetcher pipeline (src/getTitlesFromUrls.js).

The script fetches a sitemap.xml, parses it with xml2js, fetches every page
listed in it, extracts the page title with cheerio, and writes the collected
(title, url) pairs to a CSV file.  The embedding below models:

  an XML tree (Xml) and the xml2js default conversion of such a tree into a
  JavaScript value (JSVal), including JavaScript property-access semantics
  (reading a key off undefined throws, reading a missing key yields
  undefined, calling map on a non-array throws);

  an HTML tree (Html) and the cheerio operations used by the script
  (select all elements with a given tag, concatenate their text, trim);

  the four functions of the script (fetchSitemapXml, parseSitemapXml,
  getPageTitle, processUrls) and the top-level driver (runMain), with the
  network and the XML text parser abstracted as environment functions,
  console.error output collected into lists of strings, and the CSV file
  modelled as a list of rows of fields.

JavaScript truthiness is modelled where the script relies on it: the null
sentinel and the empty string are both falsy in the checks
if (pageTitle), if (!sitemapXml) and if (!sitemapUrl).
-/

/-- A well-formed XML tree: an element with a tag and children, or text.
Attributes are not modelled; no claim involves them. -/
inductive Xml where
  | text (s : String)
  | elem (tag : String) (children : List Xml)

/-- A JavaScript value as produced by xml2js and consumed by the script:
undefined, a string, an array, or an object given as a list of fields. -/
inductive JSVal where
  | undef
  | str (s : String)
  | arr (elems : List JSVal)
  | obj (fields : List (String × JSVal))

/-- True when every character of the string is whitespace (this includes the
empty string).  Models the blank-text test xml2js applies before dropping
character content. -/
def isBlank (s : String) : Bool := s.toList.all Char.isWhitespace

/-- Concatenation of the direct text children of an element, in order, as
accumulated by the xml2js character handler. -/
def rawText : List Xml → String
  | [] => ""
  | Xml.text s :: rest => s ++ rawText rest
  | Xml.elem _ _ :: rest => rawText rest

/-- Groups a list of (tag, value) pairs the way xml2js builds an object from
element children: each key is mapped to the array of all values carrying that
key, in document order.  Duplicate fields may appear; lookup always finds the
complete group, so they are harmless. -/
def groupFields (pairs : List (String × JSVal)) : List (String × JSVal) :=
  pairs.map (fun p =>
    (p.fst, JSVal.arr ((pairs.filter (fun q => q.fst == p.fst)).map Prod.snd)))

mutual
/-- The xml2js default conversion of an element body (explicitArray true,
emptyTag the empty string, trim false): an element with no element children
becomes its text, blank text becoming the empty string; an element with
element children becomes an object mapping each child tag to the array of
converted children, with non-blank character content stored under the
underscore key. -/
def jsOfXml : Xml → JSVal
  | Xml.text s => JSVal.str s
  | Xml.elem _ cs =>
      match jsPairs cs with
      | [] => if isBlank (rawText cs) then JSVal.str "" else JSVal.str (rawText cs)
      | p :: rest =>
          if isBlank (rawText cs) then JSVal.obj (groupFields (p :: rest))
          else JSVal.obj (("_", JSVal.str (rawText cs)) :: groupFields (p :: rest))

/-- The element children of a node list, each paired with its tag and its
xml2js conversion; text children contribute no pair. -/
def jsPairs : List Xml → List (String × JSVal)
  | [] => []
  | Xml.text _ :: rest => jsPairs rest
  | Xml.elem t cs :: rest => (t, jsOfXml (Xml.elem t cs)) :: jsPairs rest
end

/-- JavaScript property access v[key]: reading any key off undefined throws a
TypeError; reading a key off an object yields the first field with that key or
undefined; strings and arrays have none of the keys the script reads, so the
access yields undefined. -/
def jsGet : JSVal → String → Except String JSVal
  | JSVal.undef, _ => Except.error "TypeError: cannot read properties of undefined"
  | JSVal.obj fields, key =>
      Except.ok (match fields.find? (fun p => p.fst == key) with
        | some p => p.snd
        | none => JSVal.undef)
  | _, _ => Except.ok JSVal.undef

/-- JavaScript indexing v[i] with a numeric literal: indexing undefined
throws; indexing an array yields the element or undefined past the end;
indexing a string yields the one-character string or undefined; objects have
no numeric keys in this model. -/
def jsIndex : JSVal → Nat → Except String JSVal
  | JSVal.undef, _ => Except.error "TypeError: cannot read properties of undefined"
  | JSVal.arr es, i =>
      Except.ok (match es.get? i with
        | some v => v
        | none => JSVal.undef)
  | JSVal.str s, i =>
      Except.ok (match s.toList.get? i with
        | some c => JSVal.str (String.mk [c])
        | none => JSVal.undef)
  | JSVal.obj _, _ => Except.ok JSVal.undef

/-- The callback url => url.loc[0] mapped over a list of values, propagating
any TypeError thrown by an element. -/
def mapLoc : List JSVal → Except String (List JSVal)
  | [] => Except.ok []
  | u :: rest => do
      let locVal ← jsGet u "loc"
      let first ← jsIndex locVal 0
      let tail ← mapLoc rest
      Except.ok (first :: tail)

/-- The call v.map(url => url.loc[0]): on an array the callback is mapped
over the elements; on any other value the map property is not a function (or
the access itself throws), so the call throws. -/
def jsMapLoc : JSVal → Except String (List JSVal)
  | JSVal.arr es => mapLoc es
  | _ => Except.error "TypeError: map is not a function"

/-- The root object xml2js returns for a document (explicitRoot true): the
converted root element stored under the root tag. -/
def xml2jsParse : Xml → JSVal
  | Xml.elem t cs => JSVal.obj [(t, jsOfXml (Xml.elem t cs))]
  | Xml.text _ => JSVal.obj []

/-- The expression parsedData.urlset.url.map(url => url.loc[0]) evaluated
with JavaScript semantics over the xml2js parse of the document. -/
def sitemapUrlValues (doc : Xml) : Except String (List JSVal) := do
  let urlset ← jsGet (xml2jsParse doc) "urlset"
  let urlVal ← jsGet urlset "url"
  jsMapLoc urlVal

/-- parseSitemapXml from src/getTitlesFromUrls.js, applied to the parse tree
of a well-formed document: returns the extracted array of loc values, or the
null sentinel (none) when the extraction throws and the catch block runs. -/
def parseSitemapXml (doc : Xml) : Option (List JSVal) :=
  match sitemapUrlValues doc with
  | Except.ok l => some l
  | Except.error _ => none

/-- parseSitemapXml applied to raw text: the xml2js string parser is
abstracted as an environment function returning none on text it rejects
(malformed XML), in which case the catch block returns the null sentinel. -/
def parseSitemapXmlText (xmlParse : String → Option Xml) (content : String) :
    Option (List JSVal) :=
  match xmlParse content with
  | none => none
  | some doc => parseSitemapXml doc

/-- The loc element of one sitemap url entry. -/
def locEntry (u : String) : Xml := Xml.elem "loc" [Xml.text u]

/-- One url entry of a sitemap: a url element with exactly one loc child
holding the URL text. -/
def urlEntry (u : String) : Xml := Xml.elem "url" [locEntry u]

/-- A valid sitemap document per the spec: a root urlset element whose
children are url entries. -/
def sitemapDoc (urls : List String) : Xml :=
  Xml.elem "urlset" (urls.map urlEntry)

example : parseSitemapXml (sitemapDoc ["https://a.test/"]) =
    some [JSVal.str "https://a.test/"] := rfl

example : parseSitemapXml (Xml.elem "urlset" []) = none := rfl

/-- An HTML tree as produced by the cheerio load of a fetched page: an
element with a tag and children, or a text node. -/
inductive Html where
  | text (s : String)
  | elem (tag : String) (children : List Html)

/-- Concatenation of a list of strings, in order. -/
def concatStrings : List String → String
  | [] => ""
  | s :: rest => s ++ concatStrings rest

mutual
/-- The text content of a node: its descendant text concatenated in document
order, as cheerio computes it for one element. -/
def textContent : Html → String
  | Html.text s => s
  | Html.elem _ cs => textContentList cs

/-- The concatenated text content of a list of nodes. -/
def textContentList : List Html → String
  | [] => ""
  | c :: cs => textContent c ++ textContentList cs
end

mutual
/-- The cheerio tag selection over a document: every element whose tag equals
the selector, in document (preorder) order. -/
def selectAll (tag : String) : Html → List Html
  | Html.text _ => []
  | Html.elem t cs =>
      (if t = tag then [Html.elem t cs] else []) ++ selectAllList tag cs

/-- The cheerio tag selection over a list of nodes. -/
def selectAllList (tag : String) : List Html → List Html
  | [] => []
  | c :: cs => selectAll tag c ++ selectAllList tag cs
end

/-- JavaScript String.prototype.trim: the string with leading and trailing
whitespace characters removed. -/
def jsTrim (s : String) : String :=
  String.mk (((s.toList.dropWhile Char.isWhitespace).reverse.dropWhile
    Char.isWhitespace).reverse)

/-- The expression dollar(title).text() of the script: the jQuery-style text
of the selection, which is the concatenation of the text content of every
matched element, not only the first one. -/
def cheerioTitleText (doc : Html) : String :=
  concatStrings ((selectAll "title" doc).map textContent)

/-- getPageTitle from src/getTitlesFromUrls.js.  The composite of the axios
fetch and the cheerio load is abstracted as the environment function pages,
with none meaning the fetch rejected.  On a fetch error the catch block logs
and returns the null sentinel; otherwise the trimmed selection text is
returned, which is the empty string when the page has no title element.  The
second component is the list of console.error lines the call produces. -/
def getPageTitle (pages : String → Option Html) (url : String) :
    Option String × List String :=
  match pages url with
  | none => (none, ["Error fetching page title from " ++ url])
  | some doc => (some (jsTrim (cheerioTitleText doc)), [])

/-- JavaScript truthiness of the value held by a variable that is either the
null sentinel or a string: null is falsy and so is the empty string. -/
def jsTruthyOptStr : Option String → Bool
  | none => false
  | some s => if s = "" then false else true

/-- One output record of the script: a page URL paired with its extracted
title. -/
structure TitleRecord where
  url : String
  pageTitle : String
deriving DecidableEq

/-- processUrls from src/getTitlesFromUrls.js: iterates over the URLs in
order, extracting each title; a record is pushed only when the check
if (pageTitle) passes, so both the null sentinel and the empty string are
dropped. -/
def processUrls (pages : String → Option Html) : List String → List TitleRecord
  | [] => []
  | url :: rest =>
      match (getPageTitle pages url).fst with
      | none => processUrls pages rest
      | some t =>
          if t = "" then processUrls pages rest
          else { url := url, pageTitle := t } :: processUrls pages rest

/-- The console.error lines produced while processing a list of URLs, in
order. -/
def processUrlsLogs (pages : String → Option Html) : List String → List String
  | [] => []
  | url :: rest => (getPageTitle pages url).snd ++ processUrlsLogs pages rest

/-- fetchSitemapXml from src/getTitlesFromUrls.js.  The axios GET is
abstracted as the environment function net, with none meaning the request
rejected (network error or non-2xx status, which axios turns into a
rejection by default).  On a rejection the catch block logs and returns the
null sentinel; otherwise the response body is returned unchanged.  The
second component is the list of console.error lines the call produces. -/
def fetchSitemapXml (net : String → Option String) (url : String) :
    Option String × List String :=
  match net url with
  | none => (none, ["Error fetching sitemap.xml from " ++ url])
  | some body => (some body, [])

/-- The environment of one run: the command-line argument, the network
response for the sitemap URL, the xml2js text parser, and the composite of
page fetch and cheerio load for each page URL. -/
structure Env where
  argv2 : Option String
  net : String → Option String
  xmlParse : String → Option Xml
  pages : String → Option Html

/-- Which exit the driver took. -/
inductive RunOutcome where
  | noArg
  | sitemapFetchFailed
  | sitemapParseFailed
  | completed (records : List TitleRecord)
deriving DecidableEq

/-- The observable result of one run: the exit taken, every URL a network
request was issued for (in order), the CSV file written (none when the run
ended before the export stage) as a list of rows of fields, and the
console.error lines. -/
structure RunResult where
  outcome : RunOutcome
  fetched : List String
  csv : Option (List (List String))
  errors : List String
deriving DecidableEq

/-- The rows of the CSV file the csv-writer produces for the collected
records: the header row with the title column first and the URL column
second, then one row per record in order. -/
def csvFile (records : List TitleRecord) : List (List String) :=
  ["Page Title", "URL"] :: records.map (fun r => [r.pageTitle, r.url])

/-- The message printed when no command-line argument is supplied. -/
def errNoArg : String :=
  "Please provide a sitemap.xml URL as a command-line argument."

/-- The message printed when the sitemap body check fails. -/
def errNoSitemap : String :=
  "Could not fetch sitemap.xml content from the provided URL."

/-- The message printed when the sitemap parse check fails. -/
def errNoUrls : String := "No valid URLs found in the sitemap.xml content."

/-- The message the parseSitemapXml catch block logs. -/
def errParse : String := "Error parsing sitemap.xml content"

/-- The string the driver passes to axios for one extracted value.  Every
loc value of a well-formed sitemap is a string; other shapes arise only from
documents outside every claim and are mapped to the empty string. -/
def jsDisplay : JSVal → String
  | JSVal.str s => s
  | _ => ""

/-- The top-level async IIFE of src/getTitlesFromUrls.js as a function of
the environment: checks the argument (empty string is falsy), fetches the
sitemap, checks the body (null and empty string are falsy), parses it,
checks the url array (null is falsy, an empty array is truthy), processes
the URLs and writes the CSV.  Timestamping and directory creation are
filesystem details outside every claim and are not modelled. -/
def runMain (env : Env) : RunResult :=
  match env.argv2 with
  | none =>
      { outcome := RunOutcome.noArg, fetched := [], csv := none,
        errors := [errNoArg] }
  | some sitemapUrl =>
      if sitemapUrl = "" then
        { outcome := RunOutcome.noArg, fetched := [], csv := none,
          errors := [errNoArg] }
      else
        let fetchRes := fetchSitemapXml env.net sitemapUrl
        match fetchRes.fst with
        | none =>
            { outcome := RunOutcome.sitemapFetchFailed,
              fetched := [sitemapUrl], csv := none,
              errors := fetchRes.snd ++ [errNoSitemap] }
        | some body =>
            if body = "" then
              { outcome := RunOutcome.sitemapFetchFailed,
                fetched := [sitemapUrl], csv := none,
                errors := fetchRes.snd ++ [errNoSitemap] }
            else
              match parseSitemapXmlText env.xmlParse body with
              | none =>
                  { outcome := RunOutcome.sitemapParseFailed,
                    fetched := [sitemapUrl], csv := none,
                    errors := fetchRes.snd ++ [errParse, errNoUrls] }
              | some urlVals =>
                  let urls := urlVals.map jsDisplay
                  let titles := processUrls env.pages urls
                  { outcome := RunOutcome.completed titles,
                    fetched := sitemapUrl :: urls,
                    csv := some (csvFile titles),
                    errors := fetchRes.snd ++ processUrlsLogs env.pages urls }

theorem string_append_empty (s : String) : s ++ "" = s := by
  cases s with
  | mk l => show String.mk (l ++ []) = String.mk l; rw [List.append_nil]

theorem processUrls_append (pages : String → Option Html) (l₁ l₂ : List String) :
    processUrls pages (l₁ ++ l₂) = processUrls pages l₁ ++ processUrls pages l₂ := by
  induction l₁ with
  | nil => rfl
  | cons u rest ih =>
      simp only [List.cons_append, processUrls]
      cases (getPageTitle pages u).fst with
      | none => exact ih
      | some t =>
          by_cases ht : t = ""
          · simp [ht, ih]
          · simp [ht, ih]

theorem processUrls_eq_filter (pages : String → Option Html) (urls : List String) :
    processUrls pages urls =
      (urls.filter (fun u => jsTruthyOptStr (getPageTitle pages u).fst)).map
        (fun u => { url := u, pageTitle := ((getPageTitle pages u).fst).getD "" }) := by
  induction urls with
  | nil => rfl
  | cons u rest ih =>
      simp only [processUrls, List.filter]
      cases h : (getPageTitle pages u).fst with
      | none => simp [jsTruthyOptStr, h, ih]
      | some t =>
          by_cases ht : t = ""
          · simp [jsTruthyOptStr, h, ht, ih]
          · simp [jsTruthyOptStr, h, ht, ih]

theorem mem_processUrls (pages : String → Option Html) (urls : List String)
    (r : TitleRecord) (h : r ∈ processUrls pages urls) :
    r.url ∈ urls ∧ (getPageTitle pages r.url).fst = some r.pageTitle ∧
      r.pageTitle ≠ "" := by
  induction urls with
  | nil => cases h
  | cons u rest ih =>
      simp only [processUrls] at h
      cases hg : (getPageTitle pages u).fst with
      | none =>
          rw [hg] at h
          have := ih h
          exact ⟨List.mem_cons_of_mem u this.1, this.2⟩
      | some t =>
          simp only [hg] at h
          by_cases ht : t = ""
          · rw [if_pos ht] at h
            have := ih h
            exact ⟨List.mem_cons_of_mem u this.1, this.2⟩
          · rw [if_neg ht] at h
            cases h with
            | head =>
                exact ⟨List.mem_cons_self u rest, hg, ht⟩
            | tail _ hmem =>
                have := ih hmem
                exact ⟨List.mem_cons_of_mem u this.1, this.2⟩

theorem jsOfXml_locEntry (u : String) (h : isBlank u = true → u = "") :
    jsOfXml (locEntry u) = JSVal.str u := by
  by_cases hb : isBlank u = true
  · have hu : u = "" := h hb
    subst hu
    rfl
  · simp only [locEntry, jsOfXml, jsPairs, rawText, string_append_empty]
    rw [if_neg hb]

theorem isBlank_empty : isBlank "" = true := rfl

theorem jsOfXml_urlEntry (u : String) (h : isBlank u = true → u = "") :
    jsOfXml (urlEntry u) = JSVal.obj [("loc", JSVal.arr [JSVal.str u])] := by
  by_cases hb : isBlank u = true
  · have hu : u = "" := h hb
    subst hu
    rfl
  · simp [urlEntry, jsOfXml, jsPairs, rawText, string_append_empty,
      isBlank_empty, groupFields, hb]

theorem jsPairs_map_urlEntry (l : List String) :
    jsPairs (l.map urlEntry) =
      l.map (fun u => ("url", jsOfXml (urlEntry u))) := by
  induction l with
  | nil => rfl
  | cons u rest ih =>
      simp only [List.map_cons, urlEntry, jsPairs, ih]

theorem rawText_map_urlEntry (l : List String) :
    rawText (l.map urlEntry) = "" := by
  induction l with
  | nil => rfl
  | cons u rest ih =>
      simp only [List.map_cons, urlEntry, rawText, ih]

theorem filter_url_pairs (l : List String) :
    ((l.map (fun u => ("url", jsOfXml (urlEntry u)))).filter
       (fun q => q.fst == "url")) =
      l.map (fun u => ("url", jsOfXml (urlEntry u))) := by
  induction l with
  | nil => rfl
  | cons u rest ih =>
      simp only [List.map_cons, List.filter, ih]
      rfl

theorem mapLoc_urlEntries (l : List String)
    (h : ∀ u ∈ l, isBlank u = true → u = "") :
    mapLoc (l.map (fun u => jsOfXml (urlEntry u))) =
      Except.ok (l.map JSVal.str) := by
  induction l with
  | nil => rfl
  | cons u rest ih =>
      have hu := jsOfXml_urlEntry u (h u (List.mem_cons_self u rest))
      have hrest := ih (fun v hv => h v (List.mem_cons_of_mem u hv))
      simp only [List.map_cons, mapLoc, hu, jsGet, jsIndex, hrest]
      rfl


theorem jsOfXml_elem_pairs (t : String) (cs : List Xml) (p : String × JSVal)
    (ps : List (String × JSVal)) (hp : jsPairs cs = p :: ps)
    (hr : isBlank (rawText cs) = true) :
    jsOfXml (Xml.elem t cs) = JSVal.obj (groupFields (p :: ps)) := by
  rw [jsOfXml.eq_2, hp]
  simp [hr]

theorem jsOfXml_sitemapDoc (u : String) (rest : List String) :
    jsOfXml (sitemapDoc (u :: rest)) =
      JSVal.obj (groupFields (("url", jsOfXml (urlEntry u)) ::
        rest.map (fun v => ("url", jsOfXml (urlEntry v))))) := by
  have h1 := jsPairs_map_urlEntry (u :: rest)
  simp only [List.map_cons] at h1
  have h2 : isBlank (rawText ((u :: rest).map urlEntry)) = true := by
    rw [rawText_map_urlEntry]
    exact isBlank_empty
  exact jsOfXml_elem_pairs "urlset" ((u :: rest).map urlEntry) _ _ h1 h2

theorem jsGet_urlsetObj (u : String) (rest : List String) :
    jsGet (jsOfXml (sitemapDoc (u :: rest))) "url" =
      Except.ok (JSVal.arr (jsOfXml (urlEntry u) ::
        rest.map (fun v => jsOfXml (urlEntry v)))) := by
  rw [jsOfXml_sitemapDoc]
  have hf := filter_url_pairs (u :: rest)
  simp only [List.map_cons] at hf
  simp [jsGet, groupFields, hf]

theorem sitemapUrlValues_sitemapDoc (urls : List String) (hne : urls ≠ [])
    (hws : ∀ u ∈ urls, isBlank u = true → u = "") :
    sitemapUrlValues (sitemapDoc urls) = Except.ok (urls.map JSVal.str) := by
  obtain ⟨u, rest, rfl⟩ := List.exists_cons_of_ne_nil hne
  have hget := jsGet_urlsetObj u rest
  have hmap := mapLoc_urlEntries (u :: rest) hws
  simp only [List.map_cons] at hmap
  have hroot : jsGet (xml2jsParse (sitemapDoc (u :: rest))) "urlset" =
      Except.ok (jsOfXml (sitemapDoc (u :: rest))) := by
    rw [show xml2jsParse (sitemapDoc (u :: rest)) =
        JSVal.obj [("urlset", jsOfXml (sitemapDoc (u :: rest)))] from rfl]
    simp [jsGet]
  rw [sitemapUrlValues, hroot]
  simp only [bind, Except.bind]
  rw [hget]
  simp only [bind, Except.bind]
  rw [jsMapLoc, hmap]
  simp

theorem runMain_success (env : Env) (a body : String) (urlVals : List JSVal)
    (ha : env.argv2 = some a) (han : a ≠ "")
    (hb : env.net a = some body) (hbn : body ≠ "")
    (hp : parseSitemapXmlText env.xmlParse body = some urlVals) :
    runMain env =
      { outcome :=
          RunOutcome.completed (processUrls env.pages (urlVals.map jsDisplay)),
        fetched := a :: urlVals.map jsDisplay,
        csv := some (csvFile (processUrls env.pages (urlVals.map jsDisplay))),
        errors := processUrlsLogs env.pages (urlVals.map jsDisplay) } := by
  simp [runMain, ha, han, fetchSitemapXml, hb, hbn, hp]

theorem processUrls_all_none (pages : String → Option Html) (urls : List String)
    (h : ∀ v ∈ urls, pages v = none) : processUrls pages urls = [] := by
  induction urls with
  | nil => rfl
  | cons v rest ih =>
      simp [processUrls, getPageTitle, h v (List.mem_cons_self v rest),
        ih (fun w hw => h w (List.mem_cons_of_mem v hw))]

/-- C1 (counterexample): contrary to the claim, the Sitemap Parser does not
return an empty sequence on a sitemap whose urlset element has zero url
children; xml2js turns the empty urlset into an empty string, reading the
url property off it yields undefined, and the map call on undefined throws,
so the catch block returns the null sentinel. -/
theorem sitemapParser_empty_urlset_not_empty_seq :
    parseSitemapXml (Xml.elem "urlset" []) ≠ some [] := by
  rw [show parseSitemapXml (Xml.elem "urlset" []) = none from rfl]
  exact fun h => Option.noConfusion h

/-- C1 (amended): for a sitemap XML document whose root urlset element
contains zero url children (and, more generally, no element children at
all), parseSitemapXml returns the failure sentinel, not an empty
sequence. -/
theorem sitemapParser_empty_urlset_returns_sentinel (cs : List Xml)
    (h : jsPairs cs = []) :
    parseSitemapXml (Xml.elem "urlset" cs) = none := by
  have hv : jsGet (jsOfXml (Xml.elem "urlset" cs)) "url" =
      Except.ok JSVal.undef := by
    rw [jsOfXml.eq_2, h]
    by_cases hb : isBlank (rawText cs) = true
    · rw [if_pos hb]; rfl
    · rw [if_neg hb]; rfl
  have hroot : jsGet (xml2jsParse (Xml.elem "urlset" cs)) "urlset" =
      Except.ok (jsOfXml (Xml.elem "urlset" cs)) := by
    simp [xml2jsParse, jsGet]
  have hsv : sitemapUrlValues (Xml.elem "urlset" cs) = jsMapLoc JSVal.undef := by
    rw [sitemapUrlValues, hroot]
    simp only [bind, Except.bind]
    rw [hv]
  simp [parseSitemapXml, hsv, jsMapLoc]

/-- C1 (witness): the amended theorem evaluated at the empty urlset. -/
theorem sitemapParser_empty_urlset_returns_sentinel_witness :
    parseSitemapXml (Xml.elem "urlset" []) = none :=
  sitemapParser_empty_urlset_returns_sentinel [] rfl

/-- C3 (counterexample): the claim quantifies over every valid sitemap, and a
urlset with zero url entries is valid per the spec; there parseSitemapXml
does not return a sequence of length zero but the failure sentinel. -/
theorem sitemapParser_zero_entries_no_sequence :
    ¬ ∃ vals, parseSitemapXml (sitemapDoc []) = some vals ∧
      vals.length = 0 := by
  intro h
  obtain ⟨vals, hv, _⟩ := h
  rw [show parseSitemapXml (sitemapDoc []) = none from rfl] at hv
  exact Option.noConfusion hv

/-- C3 (amended): for every valid sitemap XML document with at least one url
entry, each loc text being a URL (non-blank, or empty), parseSitemapXml
returns exactly the N loc strings in document order; with zero entries it
returns the failure sentinel instead (see the counterexample). -/
theorem sitemapParser_returns_urls_in_order (urls : List String)
    (hne : urls ≠ []) (hws : ∀ u ∈ urls, isBlank u = true → u = "") :
    parseSitemapXml (sitemapDoc urls) = some (urls.map JSVal.str) := by
  simp [parseSitemapXml, sitemapUrlValues_sitemapDoc urls hne hws]

/-- C3 (witness): the amended theorem evaluated on a two-entry sitemap. -/
theorem sitemapParser_returns_urls_in_order_witness :
    parseSitemapXml (sitemapDoc ["https://a.test/", "https://a.test/b"]) =
      some (["https://a.test/", "https://a.test/b"].map JSVal.str) :=
  sitemapParser_returns_urls_in_order ["https://a.test/", "https://a.test/b"]
    (by simp) (by decide)

/-- A page whose title element is present but empty: the fetch succeeds and
title extraction returns a success value (the empty string), yet no record
is emitted. -/
def emptyTitlePage : Html :=
  Html.elem "html" [Html.elem "head" [Html.elem "title" []],
    Html.elem "body" [Html.text "content"]]

/-- A page environment serving emptyTitlePage for every URL. -/
def pgEmptyTitle : String → Option Html := fun _ => some emptyTitlePage

/-- C2 (counterexample): for a page whose fetch succeeds and whose title
extraction succeeds with the empty string (title element present but empty),
no row is emitted, so the row count is strictly below the number of URLs for
which both fetch and extraction succeeded. -/
theorem rowCount_not_eq_successes :
    ¬ ((processUrls pgEmptyTitle ["https://a.test/"]).length =
        (["https://a.test/"].filter (fun u => (pgEmptyTitle u).isSome &&
          ((getPageTitle pgEmptyTitle u).fst).isSome)).length) := by
  decide

/-- C2 (amended): the number of emitted records equals the number of sitemap
URLs for which the fetch succeeded and the extracted trimmed title is
non-empty (the truthiness check also drops empty titles); this count is at
most the number of URLs, and no record with an empty title is ever
emitted. -/
theorem rowCount_eq_nonEmpty_titles (pages : String → Option Html)
    (urls : List String) :
    (processUrls pages urls).length =
      (urls.filter (fun u => jsTruthyOptStr (getPageTitle pages u).fst)).length ∧
    (processUrls pages urls).length ≤ urls.length ∧
    ∀ r ∈ processUrls pages urls, r.pageTitle ≠ "" := by
  refine ⟨?_, ?_, ?_⟩
  · rw [processUrls_eq_filter]
    simp
  · rw [processUrls_eq_filter]
    simp only [List.length_map]
    exact List.length_filter_le _ _
  · intro r hr
    exact (mem_processUrls pages urls r hr).2.2

/-- A page with no title element at all. -/
def noTitlePage : Html :=
  Html.elem "html" [Html.elem "body" [Html.text "plain content"]]

/-- A page environment serving noTitlePage for every URL. -/
def pgNoTitle : String → Option Html := fun _ => some noTitlePage

/-- C4 (counterexample): when the page fetch succeeds but the document has
no title element, getPageTitle does not return the null sentinel (it
returns the empty string, a success-shaped value) and logs nothing, contrary
to the claim that the sentinel is returned and the failure is logged. -/
theorem noTitle_not_sentinel_not_logged :
    (getPageTitle pgNoTitle "https://a.test/").fst ≠ none ∧
    (getPageTitle pgNoTitle "https://a.test/").snd = [] := by
  decide

/-- C4 (amended): when the page fetch succeeds and the document contains no
title element, getPageTitle returns the empty string (not the null
sentinel), logs nothing, and the caller still produces no record for that
URL because the empty string fails the truthiness check. -/
theorem noTitle_empty_string_skipped (pages : String → Option Html)
    (url : String) (doc : Html) (hf : pages url = some doc)
    (ht : selectAll "title" doc = []) :
    (getPageTitle pages url).fst = some "" ∧
    (getPageTitle pages url).snd = [] ∧
    ∀ more, processUrls pages (url :: more) = processUrls pages more := by
  have h1 : (getPageTitle pages url).fst = some "" := by
    simp [getPageTitle, hf, cheerioTitleText, ht, concatStrings]
    rfl
  refine ⟨h1, ?_, ?_⟩
  · simp [getPageTitle, hf]
  · intro more
    simp [processUrls, h1]

/-- C4 (witness): the amended theorem evaluated on a concrete page without a
title element. -/
theorem noTitle_empty_string_skipped_witness :
    (getPageTitle pgNoTitle "https://b.test/").fst = some "" ∧
    (getPageTitle pgNoTitle "https://b.test/").snd = [] ∧
    processUrls pgNoTitle ["https://b.test/"] = processUrls pgNoTitle [] := by
  have h := noTitle_empty_string_skipped pgNoTitle "https://b.test/"
    noTitlePage rfl rfl
  exact ⟨h.1, h.2.1, h.2.2 []⟩

/-- A page with two title elements, with texts A and B. -/
def twoTitlePage : Html :=
  Html.elem "html" [Html.elem "head"
    [Html.elem "title" [Html.text "A"], Html.elem "title" [Html.text "B"]]]

/-- A page environment serving twoTitlePage for every URL. -/
def pgTwoTitles : String → Option Html := fun _ => some twoTitlePage

/-- C5 (counterexample): on a document with two title elements with texts A
and B, getPageTitle does not return the text of the first title element; the
jQuery-style text of the selection concatenates every matched element, so
the result is AB. -/
theorem twoTitles_not_first_title :
    (selectAll "title" twoTitlePage).map textContent = ["A", "B"] ∧
    (getPageTitle pgTwoTitles "https://a.test/").fst ≠ some "A" ∧
    (getPageTitle pgTwoTitles "https://a.test/").fst = some "AB" := by
  decide

/-- C5 (amended): for every URL whose page fetch succeeds, getPageTitle
returns the trimmed concatenation of the text content of all title elements
in document order; only when the document has exactly one title element is
this the trimmed text of that (first) element. -/
theorem title_is_trimmed_selection_text (pages : String → Option Html)
    (url : String) (doc : Html) (h : pages url = some doc) :
    (getPageTitle pages url).fst =
      some (jsTrim (concatStrings ((selectAll "title" doc).map textContent))) ∧
    ∀ t, selectAll "title" doc = [t] →
      (getPageTitle pages url).fst = some (jsTrim (textContent t)) := by
  constructor
  · simp [getPageTitle, h, cheerioTitleText]
  · intro t ht
    simp [getPageTitle, h, cheerioTitleText, ht, concatStrings,
      string_append_empty]

/-- A page with exactly one title element whose text carries surrounding
whitespace. -/
def oneTitlePage : Html :=
  Html.elem "html" [Html.elem "head" [Html.elem "title" [Html.text " Home "]],
    Html.elem "body" [Html.text "x"]]

/-- A page environment serving oneTitlePage for every URL. -/
def pgOneTitle : String → Option Html := fun _ => some oneTitlePage

/-- C5 (witness): the amended theorem evaluated on a concrete single-title
page. -/
theorem title_is_trimmed_selection_text_witness :
    (getPageTitle pgOneTitle "https://a.test/").fst =
      some (jsTrim (concatStrings
        ((selectAll "title" oneTitlePage).map textContent))) ∧
    (getPageTitle pgOneTitle "https://a.test/").fst =
      some (jsTrim (textContent (Html.elem "title" [Html.text " Home "]))) := by
  have h := title_is_trimmed_selection_text pgOneTitle "https://a.test/"
    oneTitlePage rfl
  exact ⟨h.1, h.2 (Html.elem "title" [Html.text " Home "]) rfl⟩

/-- C6: if the fetch of the sitemap URL itself fails (axios rejects on a
network error or a non-2xx status), the run aborts immediately: the only
network request issued is the sitemap one, no CSV is written, and the error
message is reported. -/
theorem sitemapFetchFailure_aborts (env : Env) (a : String)
    (ha : env.argv2 = some a) (han : a ≠ "") (hnet : env.net a = none) :
    (runMain env).outcome = RunOutcome.sitemapFetchFailed ∧
    (runMain env).csv = none ∧
    (runMain env).fetched = [a] ∧
    errNoSitemap ∈ (runMain env).errors := by
  simp [runMain, ha, han, fetchSitemapXml, hnet]

/-- An environment whose every network request fails. -/
def envDown : Env :=
  { argv2 := some "https://s.test/sitemap.xml", net := fun _ => none,
    xmlParse := fun _ => none, pages := fun _ => none }

/-- C6 (witness): the theorem evaluated on the all-failing environment. -/
theorem sitemapFetchFailure_aborts_witness :
    (runMain envDown).outcome = RunOutcome.sitemapFetchFailed ∧
    (runMain envDown).csv = none ∧
    (runMain envDown).fetched = ["https://s.test/sitemap.xml"] ∧
    errNoSitemap ∈ (runMain envDown).errors :=
  sitemapFetchFailure_aborts envDown "https://s.test/sitemap.xml" rfl
    (by decide) rfl

/-- C7: on a run whose sitemap fetch and parse succeed, a page URL whose
fetch fails is skipped while the URLs before and after it are still
processed, and even when every page fetch fails the CSV file is still
written, consisting of the header row alone (zero data rows). -/
theorem pageFetchFailure_skips_and_continues (env : Env) (a body : String)
    (urlVals : List JSVal) (us₁ us₂ : List String) (u : String)
    (ha : env.argv2 = some a) (han : a ≠ "")
    (hb : env.net a = some body) (hbn : body ≠ "")
    (hp : parseSitemapXmlText env.xmlParse body = some urlVals)
    (hurls : urlVals.map jsDisplay = us₁ ++ u :: us₂)
    (hu : env.pages u = none) :
    (runMain env).outcome = RunOutcome.completed
      (processUrls env.pages us₁ ++ processUrls env.pages us₂) ∧
    (runMain env).csv = some (csvFile
      (processUrls env.pages us₁ ++ processUrls env.pages us₂)) ∧
    ((∀ v ∈ us₁ ++ u :: us₂, env.pages v = none) →
      (runMain env).csv = some [["Page Title", "URL"]]) := by
  have hrun := runMain_success env a body urlVals ha han hb hbn hp
  have hskip : processUrls env.pages (u :: us₂) = processUrls env.pages us₂ := by
    simp [processUrls, getPageTitle, hu]
  have hsplit : processUrls env.pages (us₁ ++ u :: us₂) =
      processUrls env.pages us₁ ++ processUrls env.pages us₂ := by
    rw [processUrls_append, hskip]
  refine ⟨?_, ?_, ?_⟩
  · rw [hrun]
    simp [hurls, hsplit]
  · rw [hrun]
    simp [hurls, hsplit]
  · intro hall
    rw [hrun]
    simp only [hurls]
    rw [processUrls_all_none env.pages (us₁ ++ u :: us₂) hall]
    rfl

/-- An environment whose sitemap holds one URL and whose every page fetch
fails. -/
def envPagesDown : Env :=
  { argv2 := some "https://s.test/sitemap.xml",
    net := fun _ => some "sitemap-body",
    xmlParse := fun _ => some (sitemapDoc ["https://a.test/x"]),
    pages := fun _ => none }

/-- C7 (witness): the theorem evaluated on the one-URL sitemap whose page
fetch fails; the CSV is still written with the header row alone. -/
theorem pageFetchFailure_skips_and_continues_witness :
    (runMain envPagesDown).outcome = RunOutcome.completed
      (processUrls envPagesDown.pages [] ++ processUrls envPagesDown.pages []) ∧
    (runMain envPagesDown).csv = some (csvFile
      (processUrls envPagesDown.pages [] ++ processUrls envPagesDown.pages [])) ∧
    (runMain envPagesDown).csv = some [["Page Title", "URL"]] := by
  have h := pageFetchFailure_skips_and_continues envPagesDown
    "https://s.test/sitemap.xml" "sitemap-body" [JSVal.str "https://a.test/x"]
    [] [] "https://a.test/x" rfl (by decide) rfl (by decide) rfl rfl rfl
  exact ⟨h.1, h.2.1, h.2.2 (fun v _ => rfl)⟩

/-- A sitemap-backed environment whose single page has an empty title
element: the page fetch and the title extraction both succeed (with the
empty string), but the CSV contains no data row. -/
def envEmptyTitleRun : Env :=
  { argv2 := some "https://s.test/sitemap.xml",
    net := fun _ => some "sitemap-body",
    xmlParse := fun _ => some (sitemapDoc ["https://a.test/"]),
    pages := fun _ => some (Html.elem "html" [Html.elem "title" []]) }

/-- C8 (counterexample): the CSV rows are not the rows for every URL whose
fetch and title extraction succeeded; a URL whose extraction succeeds with
an empty title produces no row, so the claimed row list (which would carry
that URL with an empty title) differs from what the run writes. -/
theorem csv_not_rows_of_all_successes :
    (runMain envEmptyTitleRun).csv ≠
      some (["Page Title", "URL"] ::
        ((["https://a.test/"].filter (fun u =>
            ((getPageTitle envEmptyTitleRun.pages u).fst).isSome)).map
          (fun u => [((getPageTitle envEmptyTitleRun.pages u).fst).getD "", u]))) := by
  decide

/-- C8 (amended): on a run that reaches the export stage, the CSV begins
with the header row holding Page Title first and URL second, and its data
rows list title then URL, in the same order as the sitemap url entries,
keeping exactly the URLs whose fetch succeeded and whose extracted trimmed
title is non-empty (so URLs that failed fetch, failed extraction, or
yielded an empty title are removed). -/
theorem csv_header_and_order (env : Env) (a body : String)
    (urlVals : List JSVal) (urls : List String)
    (ha : env.argv2 = some a) (han : a ≠ "")
    (hb : env.net a = some body) (hbn : body ≠ "")
    (hp : parseSitemapXmlText env.xmlParse body = some urlVals)
    (hurls : urlVals.map jsDisplay = urls) :
    (runMain env).csv =
      some (["Page Title", "URL"] ::
        ((urls.filter (fun u => jsTruthyOptStr (getPageTitle env.pages u).fst)).map
          (fun u => [((getPageTitle env.pages u).fst).getD "", u]))) := by
  have hrun := runMain_success env a body urlVals ha han hb hbn hp
  rw [hrun]
  simp only [hurls]
  rw [processUrls_eq_filter]
  simp [csvFile]

/-- A page with the title Home. -/
def homePage : Html :=
  Html.elem "html" [Html.elem "head" [Html.elem "title" [Html.text "Home"]]]

/-- A sitemap-backed environment whose single page carries the title
Home. -/
def envHomeRun : Env :=
  { argv2 := some "https://s.test/sitemap.xml",
    net := fun _ => some "sitemap-body",
    xmlParse := fun _ => some (sitemapDoc ["https://a.test/"]),
    pages := fun _ => some homePage }

/-- C8 (witness): the amended theorem evaluated on a one-page run. -/
theorem csv_header_and_order_witness :
    (runMain envHomeRun).csv =
      some (["Page Title", "URL"] ::
        ((["https://a.test/"].filter (fun u =>
            jsTruthyOptStr (getPageTitle envHomeRun.pages u).fst)).map
          (fun u => [((getPageTitle envHomeRun.pages u).fst).getD "", u]))) :=
  csv_header_and_order envHomeRun "https://s.test/sitemap.xml" "sitemap-body"
    [JSVal.str "https://a.test/"] ["https://a.test/"] rfl (by decide) rfl
    (by decide) rfl rfl

/-- C9: with no command-line argument the run exits at the argument check:
the error message is printed, no network request of any kind is issued, and
no output file is written. -/
theorem noArgument_no_network_no_file (env : Env) (h : env.argv2 = none) :
    (runMain env).outcome = RunOutcome.noArg ∧
    (runMain env).fetched = [] ∧
    (runMain env).csv = none ∧
    (runMain env).errors = [errNoArg] := by
  simp [runMain, h]

/-- An environment with no command-line argument. -/
def envNoArg : Env :=
  { argv2 := none, net := fun _ => some "body",
    xmlParse := fun _ => none, pages := fun _ => none }

/-- C9 (witness): the theorem evaluated on the argument-less environment. -/
theorem noArgument_no_network_no_file_witness :
    (runMain envNoArg).outcome = RunOutcome.noArg ∧
    (runMain envNoArg).fetched = [] ∧
    (runMain envNoArg).csv = none ∧
    (runMain envNoArg).errors = [errNoArg] :=
  noArgument_no_network_no_file envNoArg rfl

/-- C10: when the sitemap request succeeds with an empty body, the driver
check treats the empty string exactly like the null failure sentinel: the
run takes the sitemap-fetch-failed exit, reports that the sitemap could not
be fetched, writes no CSV, and its outcome, requests and CSV agree with
those of a run whose sitemap fetch rejects outright. -/
theorem emptyBody_same_as_fetchFailure (env envFail : Env) (a : String)
    (ha : env.argv2 = some a) (ha2 : envFail.argv2 = some a) (han : a ≠ "")
    (hb : env.net a = some "") (hb2 : envFail.net a = none) :
    (runMain env).outcome = RunOutcome.sitemapFetchFailed ∧
    (runMain env).csv = none ∧
    (runMain env).fetched = [a] ∧
    errNoSitemap ∈ (runMain env).errors ∧
    (runMain env).outcome = (runMain envFail).outcome ∧
    (runMain env).csv = (runMain envFail).csv ∧
    (runMain env).fetched = (runMain envFail).fetched ∧
    errNoSitemap ∈ (runMain envFail).errors := by
  simp [runMain, ha, ha2, han, fetchSitemapXml, hb, hb2]

/-- An environment whose sitemap request succeeds with an empty body. -/
def envEmptyBody : Env :=
  { argv2 := some "https://s.test/sitemap.xml", net := fun _ => some "",
    xmlParse := fun _ => none, pages := fun _ => none }

/-- An environment whose sitemap request rejects. -/
def envNetFail : Env :=
  { argv2 := some "https://s.test/sitemap.xml", net := fun _ => none,
    xmlParse := fun _ => none, pages := fun _ => none }

/-- C10 (witness): the theorem evaluated on the empty-body environment and
the rejecting environment. -/
theorem emptyBody_same_as_fetchFailure_witness :
    (runMain envEmptyBody).outcome = RunOutcome.sitemapFetchFailed ∧
    (runMain envEmptyBody).csv = none ∧
    (runMain envEmptyBody).fetched = ["https://s.test/sitemap.xml"] ∧
    errNoSitemap ∈ (runMain envEmptyBody).errors ∧
    (runMain envEmptyBody).outcome = (runMain envNetFail).outcome ∧
    (runMain envEmptyBody).csv = (runMain envNetFail).csv ∧
    (runMain envEmptyBody).fetched = (runMain envNetFail).fetched ∧
    errNoSitemap ∈ (runMain envNetFail).errors :=
  emptyBody_same_as_fetchFailure envEmptyBody envNetFail
    "https://s.test/sitemap.xml" rfl rfl (by decide) rfl rfl
